import Mathlib

/-!
Shallow embedding of the Stream-backend room-synchronization subsystem
(`src/routes/rooms.js`, `src/models/Room.js`, `src/middleware/auth.js`
trivia router, `src/unnamed/part_003` TriviaAnswer model).

`src/routes/rooms.js` contains two concatenated copies of the router; where
the two copies of a handler differ (the second copy of `GET /:roomId` and of
`POST /join` does not purge banned users from `participants`), both are
embedded, suffixed `V1` (first copy) and `V2` (second copy).

JavaScript numbers that the handlers compare and subtract are embedded as
rationals; timestamps produced by `new Date()` are an abstract `Nat` passed
in as `now`.  JavaScript truthiness tests in the handlers
(`req.body.timestamp`, `!inviteCode`, `(settings && settings.maxParticipants) || 50`,
`!answer`) are embedded faithfully: `0`, the empty string, and an absent
value are falsy.
-/

namespace StreamBackend

abbrev UserId := Nat

/-- JavaScript `Math.abs` on the embedded numbers. -/
def jsAbs (x : ℚ) : ℚ := if x < 0 then -x else x

/-- Truthiness of an optional number (`undefined`, `null` and `0` are falsy). -/
def truthyNum : Option ℚ → Bool
  | none => false
  | some x => decide (x ≠ 0)

/-- The `movie` subdocument of a room (`src/models/Room.js` lines 7-14). -/
structure Movie where
  title : Option String
  url : Option String
  thumbnail : Option String
  currentTime : ℚ
  isPlaying : Bool
  lastUpdated : Nat
deriving Repr, DecidableEq

/-- The embedded movie summary of a watchlist entry (`src/models/Room.js` lines 19-24). -/
structure MovieSummary where
  id : String
  title : String
  thumbnail : Option String
  year : Option String
deriving Repr, DecidableEq

/-- A room watchlist entry.  The route handlers read and write a `votes`
array on each entry (`rooms.js` lines 237-246, 746-760), so it is part of
the in-memory document the handlers operate on. -/
structure WatchlistEntry where
  movie : MovieSummary
  addedBy : UserId
  votes : List UserId
deriving Repr, DecidableEq

/-- Room settings.  Only `videoLink` is declared in the schema
(`src/models/Room.js` lines 15-17); the other keys are the allow-listed
fields written by `PATCH /:roomId/settings` (`rooms.js` lines 331-339) and
read back by the capacity checks. -/
structure Settings where
  maxParticipants : Option Nat
  allowChat : Option Bool
  allowWatchlist : Option Bool
  allowTrivia : Option Bool
  autoplay : Option Bool
  description : Option String
  videoLink : Option String
deriving Repr, DecidableEq

/-- The effective participant limit
`((room.settings && room.settings.maxParticipants) || 50)`
(`rooms.js` lines 99, 154, 586, 635): an absent or falsy (zero) stored
limit falls back to 50. -/
def Settings.effectiveMax (s : Settings) : Nat :=
  match s.maxParticipants with
  | some m => if m = 0 then 50 else m
  | none => 50

/-- Playback event type (`src/models/Room.js` line 41). -/
inductive EventType where
  | play
  | pause
  | seek
  | sync
deriving Repr, DecidableEq

/-- An entry of the `playbackEvents` analytics log (`src/models/Room.js`
lines 40-45; the handlers never set `position`). -/
structure PlaybackEvent where
  type : EventType
  userId : UserId
  timestamp : Nat
deriving Repr, DecidableEq

/-- An entry of the `syncEvents` drift log (`src/models/Room.js` lines 46-50). -/
structure SyncEvent where
  userId : UserId
  difference : ℚ
  timestamp : Nat
deriving Repr, DecidableEq

/-- A Room document (`src/models/Room.js`). -/
structure Room where
  name : String
  creator : UserId
  participants : List UserId
  movie : Option Movie
  settings : Settings
  watchlist : List WatchlistEntry
  isPrivate : Bool
  inviteCode : Option String
  bannedUsers : List UserId
  isActive : Bool
  playbackEvents : List PlaybackEvent
  syncEvents : List SyncEvent
deriving Repr, DecidableEq

/-- The 4xx outcomes the handlers produce. -/
inductive HttpError where
  | notFound
  | forbidden
  | conflict
  | badRequest
deriving Repr, DecidableEq

instance {ε α : Type} [DecidableEq ε] [DecidableEq α] :
    DecidableEq (Except ε α) := fun a b =>
  match a, b with
  | .error e, .error f =>
      if h : e = f then .isTrue (by rw [h])
      else .isFalse (by intro c; cases c; exact h rfl)
  | .error _, .ok _ => .isFalse (by intro c; cases c)
  | .ok _, .error _ => .isFalse (by intro c; cases c)
  | .ok x, .ok y =>
      if h : x = y then .isTrue (by rw [h])
      else .isFalse (by intro c; cases c; exact h rfl)

/-- The body of a `PATCH /:roomId/movie` playback report (§4.3 of the spec;
`rooms.js` lines 183-213).  `currentTime` and `isPlaying` are the reported
playback state; `timestamp` is the optional extra field tested by
`req.body.timestamp`. -/
structure MovieReport where
  title : Option String
  url : Option String
  thumbnail : Option String
  currentTime : ℚ
  isPlaying : Bool
  timestamp : Option ℚ
deriving Repr, DecidableEq

/-- Playback-event classification of `PATCH /:roomId/movie`
(`rooms.js` lines 183-191):

```
let eventType = 'seek';
if (room.movie && room.movie.isPlaying !== req.body.isPlaying) {
  eventType = req.body.isPlaying ? 'play' : 'pause';
} else if (room.movie && Math.abs(room.movie.currentTime - req.body.currentTime) > 5) {
  eventType = 'seek';
} else if (req.body.timestamp) {
  eventType = 'sync';
}
```
-/
def classifyEvent (movie : Option Movie) (body : MovieReport) : EventType :=
  match movie with
  | some m =>
      if m.isPlaying ≠ body.isPlaying then
        if body.isPlaying then .play else .pause
      else if jsAbs (m.currentTime - body.currentTime) > 5 then .seek
      else if truthyNum body.timestamp then .sync
      else .seek
  | none =>
      if truthyNum body.timestamp then .sync else .seek

/-- `PATCH /:roomId/movie` (`rooms.js` lines 175-226): participant gate,
event classification from the previous stored state, unconditional append to
`playbackEvents`, conditional drift sample to `syncEvents`, then a full
replacement of `movie` by the request body with a fresh `lastUpdated`. -/
def patchMovie (r : Room) (u : UserId) (body : MovieReport) (now : Nat) :
    Except HttpError Room :=
  if u ∉ r.participants then .error .forbidden
  else
    .ok { r with
      playbackEvents := r.playbackEvents ++
        [{ type := classifyEvent r.movie body, userId := u, timestamp := now }],
      syncEvents :=
        match r.movie with
        | some m =>
            if jsAbs (m.currentTime - body.currentTime) > 2 then
              r.syncEvents ++
                [{ userId := u, difference := m.currentTime - body.currentTime,
                   timestamp := now }]
            else r.syncEvents
        | none => r.syncEvents,
      movie := some
        { title := body.title, url := body.url, thumbnail := body.thumbnail,
          currentTime := body.currentTime, isPlaying := body.isPlaying,
          lastUpdated := now } }

/-- The optional `movie` object of a `POST /` (create room) body
(`rooms.js` lines 28-36). -/
structure MovieInit where
  title : Option String
  url : Option String
  thumbnail : Option String
  currentTime : Option ℚ
  isPlaying : Option Bool
deriving Repr, DecidableEq

/-- `POST /` (create room, `rooms.js` lines 14-61).  The handler first
rejects when an active room with the requested name exists
(`Room.findOne({ name, isActive: true })`).  The subsequent
`room.save()` is additionally subject to the schema's global unique index on
`name` (`src/models/Room.js` line 4, `name: { unique: true }`, not scoped to
`isActive`); a duplicate-key failure (`error.code === 11000`) is mapped by
the handler's catch block to the same duplicate-name 400 response
(`rooms.js` lines 56-58), embedded as `conflict`.  `currentTime` and
`isPlaying` of the initial movie are read with falsy defaults
(`movie.currentTime || 0`, `movie.isPlaying || false`), which coincide with
`Option.getD`. -/
def createRoom (rooms : List Room) (name : String) (creator : UserId)
    (mi : Option MovieInit) (isPriv : Bool) (code : String) (now : Nat) :
    Except HttpError Room :=
  if ∃ r ∈ rooms, r.name = name ∧ r.isActive = true then .error .conflict
  else if ∃ r ∈ rooms, r.name = name then .error .conflict
  else
    .ok { name := name, creator := creator, participants := [creator],
          movie :=
            match mi with
            | some m => some
                { title := m.title, url := m.url, thumbnail := m.thumbnail,
                  currentTime := m.currentTime.getD 0,
                  isPlaying := m.isPlaying.getD false, lastUpdated := now }
            | none => none,
          settings :=
            { maxParticipants := none, allowChat := none,
              allowWatchlist := none, allowTrivia := none, autoplay := none,
              description := none, videoLink := some "" },
          watchlist := [], isPrivate := isPriv,
          inviteCode := if isPriv then some code else none,
          bannedUsers := [], isActive := true,
          playbackEvents := [], syncEvents := [] }

/-- The stored participants with banned users removed, the repair step
`room.participants.filter((p) => !room.bannedUsers.includes(p.toString()))`
of the first router copy (`rooms.js` lines 94-96 and 143-145). -/
def purgedParticipants (r : Room) : List UserId :=
  r.participants.filter (fun p => decide (p ∉ r.bannedUsers))

/-- The invite-code gate of `POST /join` for a non-creator
(`if (!inviteCode || inviteCode !== room.inviteCode)`, `rooms.js` lines
76-78): the provided code must be truthy (present and nonempty) and strictly
equal to the stored one. -/
def codeMatches (provided : Option String) (stored : Option String) : Bool :=
  match provided with
  | none => false
  | some c => if c = "" then false else decide (stored = some c)

/-- `POST /join`, first router copy, `roomId` branch (`rooms.js` lines
64-115): inactive rooms are 404; a non-creator needs a matching invite code;
a banned requester is 403; banned users are then purged from `participants`;
a new participant is admitted only below the effective capacity; the
document is saved on every successful path. -/
def joinRoomV1 (r : Room) (u : UserId) (code : Option String) :
    Except HttpError Room :=
  if r.isActive = false then .error .notFound
  else if r.creator ≠ u ∧ codeMatches code r.inviteCode = false then
    .error .forbidden
  else if u ∈ r.bannedUsers then .error .forbidden
  else if u ∉ purgedParticipants r then
    if (purgedParticipants r).length ≥ r.settings.effectiveMax then
      .error .forbidden
    else .ok { r with participants := purgedParticipants r ++ [u] }
  else .ok { r with participants := purgedParticipants r }

/-- `POST /join`, second router copy (`rooms.js` lines 556-601): identical
gates but no purge of banned users from `participants`; the document is
saved only when a new participant is pushed. -/
def joinRoomV2 (r : Room) (u : UserId) (code : Option String) :
    Except HttpError Room :=
  if r.isActive = false then .error .notFound
  else if r.creator ≠ u ∧ codeMatches code r.inviteCode = false then
    .error .forbidden
  else if u ∈ r.bannedUsers then .error .forbidden
  else if u ∉ r.participants then
    if r.participants.length ≥ r.settings.effectiveMax then .error .forbidden
    else .ok { r with participants := r.participants ++ [u] }
  else .ok r

/-- `GET /:roomId`, first router copy (`rooms.js` lines 131-172): banned
requesters are 403; banned users are purged from `participants`; private
rooms require membership; a non-member is admitted below the effective
capacity (the implicit join-on-view); the document is saved on every
successful path.  `isActive` is never consulted. -/
def getRoomV1 (r : Room) (u : UserId) : Except HttpError Room :=
  if u ∈ r.bannedUsers then .error .forbidden
  else if r.isPrivate = true ∧ u ∉ purgedParticipants r then .error .forbidden
  else if u ∉ purgedParticipants r then
    if (purgedParticipants r).length ≥ r.settings.effectiveMax then
      .error .forbidden
    else .ok { r with participants := purgedParticipants r ++ [u] }
  else .ok { r with participants := purgedParticipants r }

/-- `GET /:roomId`, second router copy (`rooms.js` lines 617-652): identical
gates but no purge of banned users from `participants`; the document is
saved only when a new participant is pushed.  `isActive` is never
consulted. -/
def getRoomV2 (r : Room) (u : UserId) : Except HttpError Room :=
  if u ∈ r.bannedUsers then .error .forbidden
  else if r.isPrivate = true ∧ u ∉ r.participants then .error .forbidden
  else if u ∉ r.participants then
    if r.participants.length ≥ r.settings.effectiveMax then .error .forbidden
    else .ok { r with participants := r.participants ++ [u] }
  else .ok r

/-- `Room.findById` over a store of id-indexed documents. -/
def findById (store : List (Nat × Room)) (id : Nat) : Option Room :=
  match store with
  | [] => none
  | (i, r) :: rest => if i = id then some r else findById rest id

/-- The full `GET /:roomId` route of the first copy, including the 404 on a
missing document (`rooms.js` lines 133-136). -/
def getRoomByIdV1 (store : List (Nat × Room)) (id : Nat) (u : UserId) :
    Except HttpError Room :=
  match findById store id with
  | none => .error .notFound
  | some r => getRoomV1 r u

/-- `DELETE /:roomId` (`rooms.js` lines 375-393): creator-only soft delete,
setting `isActive = false` and keeping the document stored. -/
def deleteRoom (r : Room) (u : UserId) : Except HttpError Room :=
  if r.creator ≠ u then .error .forbidden
  else .ok { r with isActive := false }

/-- `room.watchlist.find((item) => item.movie.id === movieId)`: the first
watchlist entry bearing the given movie id (`rooms.js` lines 746-748,
779-781). -/
def findEntry (l : List WatchlistEntry) (mid : String) : Option WatchlistEntry :=
  match l with
  | [] => none
  | e :: rest => if e.movie.id = mid then some e else findEntry rest mid

/-- The vote toggle of `POST /:roomId/watchlist/:movieId/vote`
(`rooms.js` lines 752-759): remove the user from `votes` when present,
append otherwise. -/
def toggleVotes (votes : List UserId) (u : UserId) : List UserId :=
  if u ∈ votes then votes.filter (fun v => decide (v ≠ u))
  else votes ++ [u]

/-- Apply the vote toggle to the first entry bearing the given movie id (the
entry returned by `find`), leaving every other entry untouched. -/
def voteFirst (l : List WatchlistEntry) (mid : String) (u : UserId) :
    List WatchlistEntry :=
  match l with
  | [] => []
  | e :: rest =>
      if e.movie.id = mid then { e with votes := toggleVotes e.votes u } :: rest
      else e :: voteFirst rest mid u

/-- `POST /:roomId/watchlist/:movieId/vote` (`rooms.js` lines 739-769). -/
def voteMovie (r : Room) (u : UserId) (mid : String) : Except HttpError Room :=
  if u ∉ r.participants then .error .forbidden
  else
    match findEntry r.watchlist mid with
    | none => .error .notFound
    | some _ => .ok { r with watchlist := voteFirst r.watchlist mid u }

/-- `POST /:roomId/watchlist/:movieId/select` (`rooms.js` lines 772-804):
creator-only; promotes the first entry bearing the movie id into `movie`
(with a YouTube watch URL built from the stored external id,
`currentTime = 0`, `isPlaying = true`; `lastUpdated` falls to the schema
default, i.e. the save time) and filters every entry with that movie id out
of the watchlist, all in one document save. -/
def selectMovie (r : Room) (u : UserId) (mid : String) (now : Nat) :
    Except HttpError Room :=
  if r.creator ≠ u then .error .forbidden
  else
    match findEntry r.watchlist mid with
    | none => .error .notFound
    | some wi =>
        .ok { r with
          movie := some
            { title := some wi.movie.title,
              url := some ("https://www.youtube.com/watch?v=" ++ wi.movie.id),
              thumbnail := wi.movie.thumbnail,
              currentTime := 0, isPlaying := true, lastUpdated := now },
          watchlist :=
            r.watchlist.filter (fun x => decide (x.movie.id ≠ wi.movie.id)) }

/-- The body of a `PATCH /:roomId/settings` request, restricted to the
allow-listed keys (`rooms.js` lines 331-339); `none` embeds an absent
(`undefined`) field. -/
structure SettingsBody where
  maxParticipants : Option Nat
  allowChat : Option Bool
  allowWatchlist : Option Bool
  allowTrivia : Option Bool
  autoplay : Option Bool
  description : Option String
  videoLink : Option String
deriving Repr, DecidableEq

/-- `room.settings = { ...room.settings, ...settings }`: each allow-listed
key present in the body overwrites the stored one (`rooms.js` lines
341-348). -/
def mergeSettings (s : Settings) (b : SettingsBody) : Settings :=
  { maxParticipants := match b.maxParticipants with
      | some v => some v
      | none => s.maxParticipants,
    allowChat := match b.allowChat with
      | some v => some v
      | none => s.allowChat,
    allowWatchlist := match b.allowWatchlist with
      | some v => some v
      | none => s.allowWatchlist,
    allowTrivia := match b.allowTrivia with
      | some v => some v
      | none => s.allowTrivia,
    autoplay := match b.autoplay with
      | some v => some v
      | none => s.autoplay,
    description := match b.description with
      | some v => some v
      | none => s.description,
    videoLink := match b.videoLink with
      | some v => some v
      | none => s.videoLink }

/-- `PATCH /:roomId/settings` (`rooms.js` lines 323-372): creator-only;
merges the allow-listed body fields into `settings`; when the body carries
`videoLink` (`settings.videoLink !== undefined`, a presence test, not a
truthiness test) it additionally rewrites `movie` in place — starting from
the stored movie or, when `movie` is null, from an empty object whose
schema defaults fill `currentTime = 0` and `isPlaying = false` — setting
`url` to the new link, `title` to `'Custom Video'`, `currentTime` to 0,
`isPlaying` to false and a fresh `lastUpdated`. -/
def patchSettings (r : Room) (u : UserId) (b : SettingsBody) (now : Nat) :
    Except HttpError Room :=
  if r.creator ≠ u then .error .forbidden
  else
    .ok { r with
      settings := mergeSettings r.settings b,
      movie :=
        match b.videoLink with
        | none => r.movie
        | some v =>
            let base := r.movie.getD
              { title := none, url := none, thumbnail := none,
                currentTime := 0, isPlaying := false, lastUpdated := now }
            some { base with
              url := some v, title := some "Custom Video",
              currentTime := 0, isPlaying := false, lastUpdated := now } }

/-- A Trivia document, restricted to the fields the answer paths read
(`models/Trivia` via `src/middleware/auth.js` trivia router). -/
structure Trivia where
  id : Nat
  correctAnswer : String
  points : Nat
deriving Repr, DecidableEq

/-- A TriviaAnswer document (`src/unnamed/part_003`); the pair
`(userId, triviaId)` carries a unique index. -/
structure TriviaAnswer where
  userId : UserId
  triviaId : Nat
  answer : String
  isCorrect : Bool
deriving Repr, DecidableEq

/-- The JSON body returned by an answer submission: the global trivia path
returns `{ isCorrect, points }`, the room-scoped path only `{ isCorrect }`
(`points := none`). -/
structure AnswerResp where
  isCorrect : Bool
  points : Option Nat
deriving Repr, DecidableEq

/-- `TriviaAnswer.findOne({ userId, triviaId })`
(`src/middleware/auth.js` line 103). -/
def findAnswer (l : List TriviaAnswer) (u : UserId) (tid : Nat) :
    Option TriviaAnswer :=
  match l with
  | [] => none
  | a :: rest =>
      if a.userId = u ∧ a.triviaId = tid then some a else findAnswer rest u tid

/-- `POST /trivia/:id/answer`, the global trivia router
(`src/middleware/auth.js` lines 87-135): an empty answer is rejected
(`if (!answer)`); when the user has already answered, the stored result is
returned with no state change; otherwise the answer is graded against
`correctAnswer`, a new TriviaAnswer is saved, and `points` is incremented on
a correct answer.  Returns the response with the updated answer store and
trivia document. -/
def globalAnswer (answers : List TriviaAnswer) (t : Trivia) (u : UserId)
    (ans : String) : Except HttpError (AnswerResp × List TriviaAnswer × Trivia) :=
  if ans = "" then .error .badRequest
  else
    match findAnswer answers u t.id with
    | some ex => .ok ({ isCorrect := ex.isCorrect, points := some t.points },
        answers, t)
    | none =>
        let isC := decide (t.correctAnswer = ans)
        let t2 := if isC then { t with points := t.points + 1 } else t
        .ok ({ isCorrect := isC, points := some t2.points },
          answers ++ [{ userId := u, triviaId := t.id, answer := ans,
                        isCorrect := isC }], t2)

/-- `POST /:roomId/trivia/:triviaId/answer`, the room-scoped answer path
(`rooms.js` lines 491-503): the answer is graded statelessly against
`correctAnswer`; no prior answer is consulted, no TriviaAnswer is created,
and `points` is never touched. -/
def roomAnswer (t : Trivia) (ans : String) : AnswerResp :=
  { isCorrect := decide (ans = t.correctAnswer), points := none }

/-- The ban-exclusivity invariant of the spec (§8):
`participants ∩ bannedUsers = ∅`. -/
def bansRespected (r : Room) : Prop :=
  ∀ p ∈ r.participants, p ∉ r.bannedUsers

instance (r : Room) : Decidable (bansRespected r) := by
  unfold bansRespected
  infer_instance

/-! ### Helper lemmas (shared) -/

theorem findEntry_id {l : List WatchlistEntry} {mid : String} {e : WatchlistEntry}
    (h : findEntry l mid = some e) : e.movie.id = mid := by
  induction l with
  | nil => simp [findEntry] at h
  | cons a t ih =>
      unfold findEntry at h
      by_cases ha : a.movie.id = mid
      · rw [if_pos ha] at h
        cases h
        exact ha
      · rw [if_neg ha] at h
        exact ih h

theorem findEntry_voteFirst {l : List WatchlistEntry} {mid : String}
    {e : WatchlistEntry} (u : UserId) (h : findEntry l mid = some e) :
    findEntry (voteFirst l mid u) mid =
      some { e with votes := toggleVotes e.votes u } := by
  induction l with
  | nil => simp [findEntry] at h
  | cons a t ih =>
      unfold findEntry at h
      unfold voteFirst
      by_cases ha : a.movie.id = mid
      · rw [if_pos ha] at h
        cases h
        rw [if_pos ha]
        unfold findEntry
        rw [if_pos ha]
      · rw [if_neg ha] at h
        rw [if_neg ha]
        unfold findEntry
        rw [if_neg ha]
        exact ih h

theorem toggleVotes_not_mem {votes : List UserId} {u : UserId} (h : u ∉ votes) :
    toggleVotes votes u = votes ++ [u] := by
  unfold toggleVotes
  rw [if_neg h]

theorem toggleVotes_twice {votes : List UserId} {u : UserId} (h : u ∉ votes) :
    toggleVotes (toggleVotes votes u) u = votes := by
  rw [toggleVotes_not_mem h]
  unfold toggleVotes
  rw [if_pos (List.mem_append_right votes (List.mem_singleton.mpr rfl))]
  rw [List.filter_append]
  have h1 : votes.filter (fun v => decide (v ≠ u)) = votes := by
    apply List.filter_eq_self.mpr
    intro a ha
    exact decide_eq_true (fun hx => h (hx ▸ ha))
  have h2 : [u].filter (fun v => decide (v ≠ u)) = [] := by simp
  rw [h1, h2, List.append_nil]

theorem voteFirst_twice {l : List WatchlistEntry} {mid : String}
    {e : WatchlistEntry} {u : UserId} (hf : findEntry l mid = some e)
    (hv : u ∉ e.votes) : voteFirst (voteFirst l mid u) mid u = l := by
  induction l with
  | nil => simp [findEntry] at hf
  | cons a t ih =>
      unfold findEntry at hf
      by_cases ha : a.movie.id = mid
      · rw [if_pos ha] at hf
        cases hf
        simp only [voteFirst, if_pos ha]
        rw [toggleVotes_twice hv]
      · rw [if_neg ha] at hf
        simp only [voteFirst, if_neg ha]
        rw [ih hf]

theorem findEntry_filter_ne (l : List WatchlistEntry) (mid : String) :
    findEntry (l.filter (fun x => decide (x.movie.id ≠ mid))) mid = none := by
  induction l with
  | nil => rfl
  | cons a t ih =>
      by_cases ha : a.movie.id = mid
      · simpa [List.filter_cons, ha] using ih
      · simpa [List.filter_cons, findEntry, ha] using ih

theorem mem_purged {r : Room} {p : UserId} :
    p ∈ purgedParticipants r ↔ p ∈ r.participants ∧ p ∉ r.bannedUsers := by
  unfold purgedParticipants
  simp [List.mem_filter]

theorem classifyEvent_some (m : Movie) (body : MovieReport) :
    classifyEvent (some m) body =
      if m.isPlaying ≠ body.isPlaying then
        (if body.isPlaying then .play else .pause)
      else if jsAbs (m.currentTime - body.currentTime) > 5 then .seek
      else if truthyNum body.timestamp then .sync else .seek := rfl

/-! ### C1 — playback-event classification of `PATCH /:roomId/movie`

The claim classifies the event as `sync` whenever the request body *carries*
a `timestamp` field and no earlier case applies.  The code tests the field
with JavaScript truthiness (`else if (req.body.timestamp)`), so a report
carrying `timestamp: 0` falls through to the default `seek`.  The claim is
refuted at that input and confirmed with the truthiness reading. -/

/-- Concrete input refuting C1 as stated: previous state
`{isPlaying: true, currentTime: 10}`. -/
def c1m : Movie :=
  { title := some "T", url := none, thumbnail := none, currentTime := 10,
    isPlaying := true, lastUpdated := 0 }

/-- Report `{isPlaying: true, currentTime: 10, timestamp: 0}`: carries a
`timestamp` field, agrees on `isPlaying`, has time delta 0. -/
def c1b : MovieReport :=
  { title := some "T", url := none, thumbnail := none, currentTime := 10,
    isPlaying := true, timestamp := some 0 }

/-- A room holding `c1m` whose only participant is user 0. -/
def c1r : Room :=
  { name := "cex", creator := 0, participants := [0], movie := some c1m,
    settings :=
      { maxParticipants := none, allowChat := none, allowWatchlist := none,
        allowTrivia := none, autoplay := none, description := none,
        videoLink := none },
    watchlist := [], isPrivate := false, inviteCode := none,
    bannedUsers := [], isActive := true, playbackEvents := [],
    syncEvents := [] }

/-- C1, counterexample: the report carries a `timestamp` field, `isPlaying`
is unchanged and the time delta is not above 5, so the claim classifies the
event as `sync`; the code classifies it as `seek` because `timestamp: 0` is
falsy, and the PATCH handler appends that `seek` event. -/
theorem patchMovie_timestamp_zero_classified_seek :
    c1b.timestamp = some 0 ∧ c1m.isPlaying = c1b.isPlaying ∧
    ¬ jsAbs (c1m.currentTime - c1b.currentTime) > 5 ∧
    classifyEvent (some c1m) c1b = .seek ∧
    (patchMovie c1r 0 c1b 3).toOption.map (fun x => x.playbackEvents) =
      some [{ type := .seek, userId := 0, timestamp := 3 }] := by
  refine ⟨rfl, rfl, by norm_num [jsAbs, c1m, c1b], ?_, ?_⟩
  · norm_num [classifyEvent, jsAbs, truthyNum, c1m, c1b]
  · norm_num [patchMovie, classifyEvent, jsAbs, truthyNum, c1r, c1m, c1b,
      Except.toOption]

/-- C1, amended: for a participant's PATCH on a room whose stored movie is
non-null, exactly one playback event is appended, classified from the
previous stored state: `play`/`pause` when the reported `isPlaying` differs,
otherwise `seek` when the time delta exceeds 5, otherwise `sync` when the
body carries a *truthy* (present and nonzero) `timestamp`, otherwise
`seek`. -/
theorem patchMovie_appends_one_classified_event (r : Room) (u : UserId)
    (body : MovieReport) (now : Nat) (m : Movie) (hp : u ∈ r.participants)
    (hm : r.movie = some m) :
    ∃ r2, patchMovie r u body now = .ok r2 ∧
      r2.playbackEvents = r.playbackEvents ++
        [{ type := classifyEvent r.movie body, userId := u, timestamp := now }] ∧
      (m.isPlaying ≠ body.isPlaying →
        classifyEvent r.movie body = (if body.isPlaying then .play else .pause)) ∧
      (m.isPlaying = body.isPlaying →
        jsAbs (m.currentTime - body.currentTime) > 5 →
        classifyEvent r.movie body = .seek) ∧
      (m.isPlaying = body.isPlaying →
        ¬ jsAbs (m.currentTime - body.currentTime) > 5 →
        truthyNum body.timestamp = true → classifyEvent r.movie body = .sync) ∧
      (m.isPlaying = body.isPlaying →
        ¬ jsAbs (m.currentTime - body.currentTime) > 5 →
        truthyNum body.timestamp = false → classifyEvent r.movie body = .seek) := by
  unfold patchMovie
  rw [if_neg (fun h => h hp)]
  refine ⟨_, rfl, rfl, ?_, ?_, ?_, ?_⟩
  · intro h
    rw [hm, classifyEvent_some, if_pos h]
  · intro h hd
    rw [hm, classifyEvent_some, if_neg (fun hx => hx h), if_pos hd]
  · intro h hd ht
    rw [hm, classifyEvent_some, if_neg (fun hx => hx h), if_neg hd, if_pos ht]
  · intro h hd ht
    rw [hm, classifyEvent_some, if_neg (fun hx => hx h), if_neg hd,
      if_neg (by simp [ht])]

/-- C1, witness: the amended theorem applied to the concrete room `c1r` and
a report pausing the movie. -/
theorem patchMovie_appends_one_classified_event_witness :
    ∃ r2, patchMovie c1r 0
        { title := some "T", url := none, thumbnail := none,
          currentTime := 10, isPlaying := false, timestamp := none } 3 = .ok r2 ∧
      r2.playbackEvents = c1r.playbackEvents ++
        [{ type := classifyEvent c1r.movie
              { title := some "T", url := none, thumbnail := none,
                currentTime := 10, isPlaying := false, timestamp := none },
            userId := 0, timestamp := 3 }] := by
  obtain ⟨r2, h1, h2, -⟩ := patchMovie_appends_one_classified_event c1r 0
    { title := some "T", url := none, thumbnail := none, currentTime := 10,
      isPlaying := false, timestamp := none } 3 c1m (by decide) rfl
  exact ⟨r2, h1, h2⟩

/-! ### C2 — sync-drift samples of `PATCH /:roomId/movie` -/

/-- C2, confirmed: on a successful participant PATCH over a non-null stored
movie, a drift sample `{userId, difference := stored − reported}` is
appended to `syncEvents` exactly when `|stored − reported| > 2`, and this is
independent of the event classification: a report agreeing on `isPlaying`
with delta 10 both classifies as `seek` and records a drift sample. -/
theorem patchMovie_drift_sample_iff_delta_gt_two (r : Room) (u : UserId)
    (body : MovieReport) (now : Nat) (m : Movie) (hp : u ∈ r.participants)
    (hm : r.movie = some m) :
    ∃ r2, patchMovie r u body now = .ok r2 ∧
      r2.syncEvents =
        (if jsAbs (m.currentTime - body.currentTime) > 2 then
          r.syncEvents ++
            [{ userId := u, difference := m.currentTime - body.currentTime,
               timestamp := now }]
        else r.syncEvents) ∧
      (m.isPlaying = body.isPlaying →
        jsAbs (m.currentTime - body.currentTime) = 10 →
        classifyEvent r.movie body = .seek ∧
        r2.syncEvents = r.syncEvents ++
          [{ userId := u, difference := m.currentTime - body.currentTime,
             timestamp := now }]) := by
  unfold patchMovie
  rw [if_neg (fun h => h hp)]
  refine ⟨_, rfl, ?_, ?_⟩
  · simp only [hm]
  · intro h hd
    constructor
    · rw [hm, classifyEvent_some, if_neg (fun hx => hx h),
        if_pos (by rw [hd]; norm_num)]
    · simp only [hm]
      rw [if_pos (by rw [hd]; norm_num)]

/-- C2, witness: previous `{isPlaying: true, currentTime: 10}` and report
`{isPlaying: true, currentTime: 20}` (delta 10): the event is `seek` and a
drift sample with difference −10 is recorded. -/
theorem patchMovie_drift_sample_witness :
    ∃ r2, patchMovie c1r 0
        { title := some "T", url := none, thumbnail := none,
          currentTime := 20, isPlaying := true, timestamp := none } 3 = .ok r2 ∧
      classifyEvent c1r.movie
        { title := some "T", url := none, thumbnail := none,
          currentTime := 20, isPlaying := true, timestamp := none } = .seek ∧
      r2.syncEvents = c1r.syncEvents ++
        [{ userId := 0, difference := c1m.currentTime - 20, timestamp := 3 }] := by
  obtain ⟨r2, h1, -, h3⟩ := patchMovie_drift_sample_iff_delta_gt_two c1r 0
    { title := some "T", url := none, thumbnail := none, currentTime := 20,
      isPlaying := true, timestamp := none } 3 c1m (by decide) rfl
  obtain ⟨h4, h5⟩ := h3 rfl (by norm_num [jsAbs, c1m])
  exact ⟨r2, h1, h4, h5⟩

/-! ### C3 — room-name uniqueness at creation

The handler's pre-check scopes uniqueness to active rooms, but the schema's
global `unique: true` index on `name` also rejects a name borne by a
soft-deleted room (surfaced through the handler's `error.code === 11000`
catch as the same Conflict).  The claim's second half — that a soft-deleted
room's name is reusable — is refuted. -/

/-- A soft-deleted (`isActive = false`) room named `movie-night`. -/
def c3r : Room :=
  { name := "movie-night", creator := 9, participants := [9], movie := none,
    settings :=
      { maxParticipants := none, allowChat := none, allowWatchlist := none,
        allowTrivia := none, autoplay := none, description := none,
        videoLink := none },
    watchlist := [], isPrivate := false, inviteCode := none,
    bannedUsers := [], isActive := false, playbackEvents := [],
    syncEvents := [] }

/-- C3, counterexample: the store holds only the soft-deleted `movie-night`
room — no *active* room bears the name — yet creating `movie-night` fails
with Conflict instead of succeeding. -/
theorem createRoom_conflict_on_soft_deleted_name :
    (∀ r ∈ [c3r], ¬(r.name = "movie-night" ∧ r.isActive = true)) ∧
    c3r.isActive = false ∧
    createRoom [c3r] "movie-night" 1 none false "ABC123" 0 = .error .conflict := by
  refine ⟨by decide, rfl, by decide⟩

/-- C3, amended: creation fails with Conflict exactly when *any* stored room
(active or soft-deleted) bears the requested name — the pre-check catches
active duplicates and the schema's global unique index rejects the rest —
and succeeds otherwise, initializing `creator` and `participants` to the
requester. -/
theorem createRoom_conflict_iff_name_exists (rooms : List Room) (name : String)
    (c : UserId) (mi : Option MovieInit) (priv : Bool) (code : String)
    (now : Nat) :
    (createRoom rooms name c mi priv code now = .error .conflict ↔
      ∃ r ∈ rooms, r.name = name) ∧
    ((∀ r ∈ rooms, r.name ≠ name) →
      ∃ nr, createRoom rooms name c mi priv code now = .ok nr ∧
        nr.name = name ∧ nr.creator = c ∧ nr.participants = [c] ∧
        nr.isActive = true) := by
  constructor
  · unfold createRoom
    by_cases hA : ∃ r ∈ rooms, r.name = name ∧ r.isActive = true
    · rw [if_pos hA]
      constructor
      · intro _
        obtain ⟨r, hr, hn, -⟩ := hA
        exact ⟨r, hr, hn⟩
      · intro _
        rfl
    · rw [if_neg hA]
      by_cases hN : ∃ r ∈ rooms, r.name = name
      · rw [if_pos hN]
        exact ⟨fun _ => hN, fun _ => rfl⟩
      · rw [if_neg hN]
        constructor
        · intro h
          cases h
        · intro h
          exact absurd h hN
  · intro hno
    have hN : ¬ ∃ r ∈ rooms, r.name = name := by
      rintro ⟨r, hr, hn⟩
      exact hno r hr hn
    have hA : ¬ ∃ r ∈ rooms, r.name = name ∧ r.isActive = true := by
      rintro ⟨r, hr, hn, -⟩
      exact hno r hr hn
    unfold createRoom
    rw [if_neg hA, if_neg hN]
    exact ⟨_, rfl, rfl, rfl, rfl, rfl⟩

/-- C3, witness: the amended theorem applied to the store `[c3r]`: creating
`movie-night` there is a Conflict, via the iff's reverse direction at the
stored soft-deleted room. -/
theorem createRoom_conflict_iff_name_exists_witness :
    createRoom [c3r] "movie-night" 2 none true "XYZ789" 5 = .error .conflict :=
  (createRoom_conflict_iff_name_exists [c3r] "movie-night" 2 none true
    "XYZ789" 5).1.mpr ⟨c3r, by decide, rfl⟩

/-! ### C4 — first-answer finality of trivia submissions

The global trivia path enforces first-answer finality through the
`(userId, triviaId)` lookup and unique index; the room-scoped path
(`POST /:roomId/trivia/:triviaId/answer`) stores nothing and regrades every
call, so a second submission there does *not* return the stored result of
the first. -/

/-- A trivia question with correct answer `"A"` and 0 points. -/
def c4t : Trivia := { id := 5, correctAnswer := "A", points := 0 }

/-- The TriviaAnswer stored by user 7's first (wrong) submission. -/
def c4a : TriviaAnswer :=
  { userId := 7, triviaId := 5, answer := "B", isCorrect := false }

/-- C4, counterexample: user 7 first answers `"B"` on the global path,
storing `isCorrect = false`; a second submission of `"A"` by the same user
to the same question through the room-scoped path returns `isCorrect =
true`, not the stored result of the first submission. -/
theorem roomAnswer_ignores_stored_first_answer :
    globalAnswer [] c4t 7 "B" =
      .ok ({ isCorrect := false, points := some 0 }, [c4a], c4t) ∧
    c4a.isCorrect = false ∧
    roomAnswer c4t "A" = { isCorrect := true, points := none } ∧
    (roomAnswer c4t "A").isCorrect ≠ c4a.isCorrect := by
  refine ⟨by decide, rfl, by decide, by decide⟩

/-- C4, amended: on the global `POST /trivia/:id/answer` path the first
answer is final — a repeat submission returns the stored `isCorrect` with
the current points, appends no TriviaAnswer, and leaves both the answer
store and the trivia document unchanged — while the room-scoped path
regrades statelessly on every call, consulting no stored answer. -/
theorem globalAnswer_first_answer_final :
    (∀ (answers : List TriviaAnswer) (t : Trivia) (u : UserId) (ans : String)
        (ex : TriviaAnswer), ans ≠ "" → findAnswer answers u t.id = some ex →
      globalAnswer answers t u ans =
        .ok ({ isCorrect := ex.isCorrect, points := some t.points },
          answers, t)) ∧
    (∀ (t : Trivia) (ans : String),
      roomAnswer t ans =
        { isCorrect := decide (ans = t.correctAnswer), points := none }) := by
  constructor
  · intro answers t u ans ex h1 h2
    unfold globalAnswer
    rw [if_neg h1, h2]
  · intro t ans
    rfl

/-- C4, witness: the amended theorem applied to a store already holding user
7's answer `c4a`: resubmitting `"A"` returns the stored `isCorrect = false`
and changes nothing. -/
theorem globalAnswer_first_answer_final_witness :
    globalAnswer [c4a] c4t 7 "A" =
      .ok ({ isCorrect := false, points := some 0 }, [c4a], c4t) :=
  globalAnswer_first_answer_final.1 [c4a] c4t 7 "A" c4a (by decide) (by decide)

/-! ### C5 — vote toggling on the room watchlist

`room.watchlist.find` returns the *first* entry bearing the movie id, and
the room-scoped add path performs no dedup, so with duplicate ids the vote
lands on the first duplicate, not on an arbitrary entry `e` as the claim's
universal quantification states. -/

/-- First watchlist entry with movie id `m` (added and voted by user 1). -/
def c5e1 : WatchlistEntry :=
  { movie := { id := "m", title := "T1", thumbnail := none, year := none },
    addedBy := 1, votes := [1] }

/-- Second watchlist entry with the same movie id `m` (added and voted by
user 2). -/
def c5e2 : WatchlistEntry :=
  { movie := { id := "m", title := "T2", thumbnail := none, year := none },
    addedBy := 2, votes := [2] }

/-- A room whose ledger holds both duplicate-id entries. -/
def c5r : Room :=
  { name := "votes", creator := 1, participants := [1, 2, 3], movie := none,
    settings :=
      { maxParticipants := none, allowChat := none, allowWatchlist := none,
        allowTrivia := none, autoplay := none, description := none,
        videoLink := none },
    watchlist := [c5e1, c5e2], isPrivate := false, inviteCode := none,
    bannedUsers := [], isActive := true, playbackEvents := [],
    syncEvents := [] }

/-- C5, counterexample: participant 3 votes with the movie id of entry
`c5e2`; the claim says 3's membership in `c5e2.votes` is toggled (3 would
join it), but the code toggles the *first* entry with that id — the result
has votes `[[1,3],[2]]`, with `c5e2` untouched. -/
theorem voteMovie_duplicate_id_targets_first_entry :
    c5e2 ∈ c5r.watchlist ∧ c5e2.movie.id = "m" ∧ (3 : UserId) ∈ c5r.participants ∧
    (3 : UserId) ∉ c5e2.votes ∧
    voteMovie c5r 3 "m" =
      .ok { c5r with watchlist := [{ c5e1 with votes := [1, 3] }, c5e2] } ∧
    (3 : UserId) ∉ c5e2.votes := by
  refine ⟨by decide, rfl, by decide, by decide, by decide, by decide⟩

/-- C5, amended: `vote` toggles the requesting participant's membership in
the votes of the *first* watchlist entry bearing the given movie id — in
particular, for any entry that is the first with its id (always, when ids
are unique) — and a second vote in succession restores the room exactly. -/
theorem voteMovie_toggles_first_entry_twice_restores (r : Room) (u : UserId)
    (mid : String) (e : WatchlistEntry) (hp : u ∈ r.participants)
    (hf : findEntry r.watchlist mid = some e) (hv : u ∉ e.votes) :
    ∃ r2, voteMovie r u mid = .ok r2 ∧
      findEntry r2.watchlist mid = some { e with votes := e.votes ++ [u] } ∧
      voteMovie r2 u mid = .ok r := by
  have h1 : voteMovie r u mid =
      .ok { r with watchlist := voteFirst r.watchlist mid u } := by
    unfold voteMovie
    rw [if_neg (fun h => h hp), hf]
  refine ⟨_, h1, ?_, ?_⟩
  · have := findEntry_voteFirst u hf
    rw [toggleVotes_not_mem hv] at this
    exact this
  · unfold voteMovie
    rw [if_neg (fun h => h hp)]
    have h2 : findEntry (voteFirst r.watchlist mid u) mid =
        some { e with votes := toggleVotes e.votes u } := findEntry_voteFirst u hf
    rw [show ({ r with watchlist := voteFirst r.watchlist mid u } : Room).watchlist
        = voteFirst r.watchlist mid u from rfl, h2]
    rw [show voteFirst (voteFirst r.watchlist mid u) mid u = r.watchlist from
      voteFirst_twice hf hv]

/-- C5, witness: user 3 votes twice on the (unique-id) first entry of a
one-entry ledger; the first vote adds 3, the second restores the room. -/
theorem voteMovie_toggles_first_entry_twice_restores_witness :
    ∃ r2, voteMovie { c5r with watchlist := [c5e1] } 3 "m" = .ok r2 ∧
      findEntry r2.watchlist "m" = some { c5e1 with votes := c5e1.votes ++ [3] } ∧
      voteMovie r2 3 "m" = .ok { c5r with watchlist := [c5e1] } :=
  voteMovie_toggles_first_entry_twice_restores
    { c5r with watchlist := [c5e1] } 3 "m" c5e1 (by decide) (by decide) (by decide)

/-! ### C6 — participant-capacity enforcement on the admission paths

The first router copy purges banned users from `participants` *before* the
capacity check, so the count compared against the limit is the purged one,
not the stored `participants.length` the claim quantifies over; and the
limit itself is read with a falsy fallback (`|| 50`).  A room whose stored
participants reach the limit only by counting banned users still admits. -/

/-- A room at stored capacity (limit 1, one participant) whose only
participant is banned. -/
def c6r : Room :=
  { name := "cap", creator := 1, participants := [2], movie := none,
    settings :=
      { maxParticipants := some 1, allowChat := none, allowWatchlist := none,
        allowTrivia := none, autoplay := none, description := none,
        videoLink := none },
    watchlist := [], isPrivate := false, inviteCode := none,
    bannedUsers := [2], isActive := true, playbackEvents := [],
    syncEvents := [] }

/-- C6, counterexample: requester 3 is not a participant and
`participants.length = 1 ≥ maxParticipants = 1`, so the claim demands
Forbidden; `GET /:roomId` (first copy) purges the banned participant first
and admits 3. -/
theorem getRoomV1_admits_at_stored_capacity :
    (3 : UserId) ∉ c6r.participants ∧ (3 : UserId) ∉ c6r.bannedUsers ∧
    c6r.isPrivate = false ∧ c6r.settings.maxParticipants = some 1 ∧
    c6r.participants.length ≥ 1 ∧
    getRoomV1 c6r 3 = .ok { c6r with participants := [3] } := by
  refine ⟨by decide, by decide, rfl, rfl, by decide, by decide⟩

/-- C6, amended: on each admission path, a requester not in the participant
list the handler checks (the banned-purged list on the first copy's
join/GET, the stored list on the second copy's) is refused with Forbidden
exactly when that list's length reaches the effective limit
(`maxParticipants` when nonzero, 50 otherwise), and an admission leaves the
checked count at most the limit. -/
theorem admission_capacity_enforced_on_checked_list (r : Room) (u : UserId)
    (code : Option String) :
    (u ∉ r.bannedUsers → r.isPrivate = false → u ∉ purgedParticipants r →
      ((purgedParticipants r).length ≥ r.settings.effectiveMax →
        getRoomV1 r u = .error .forbidden) ∧
      ((purgedParticipants r).length < r.settings.effectiveMax →
        getRoomV1 r u =
          .ok { r with participants := purgedParticipants r ++ [u] } ∧
        (purgedParticipants r ++ [u]).length ≤ r.settings.effectiveMax)) ∧
    (r.isActive = true → r.creator = u → u ∉ r.bannedUsers →
      u ∉ purgedParticipants r →
      ((purgedParticipants r).length ≥ r.settings.effectiveMax →
        joinRoomV1 r u code = .error .forbidden) ∧
      ((purgedParticipants r).length < r.settings.effectiveMax →
        joinRoomV1 r u code =
          .ok { r with participants := purgedParticipants r ++ [u] } ∧
        (purgedParticipants r ++ [u]).length ≤ r.settings.effectiveMax)) ∧
    (u ∉ r.bannedUsers → r.isPrivate = false → u ∉ r.participants →
      (r.participants.length ≥ r.settings.effectiveMax →
        getRoomV2 r u = .error .forbidden) ∧
      (r.participants.length < r.settings.effectiveMax →
        getRoomV2 r u = .ok { r with participants := r.participants ++ [u] } ∧
        (r.participants ++ [u]).length ≤ r.settings.effectiveMax)) ∧
    (r.isActive = true → r.creator = u → u ∉ r.bannedUsers →
      u ∉ r.participants →
      (r.participants.length ≥ r.settings.effectiveMax →
        joinRoomV2 r u code = .error .forbidden) ∧
      (r.participants.length < r.settings.effectiveMax →
        joinRoomV2 r u code =
          .ok { r with participants := r.participants ++ [u] } ∧
        (r.participants ++ [u]).length ≤ r.settings.effectiveMax)) := by
  refine ⟨?_, ?_, ?_, ?_⟩
  · intro hb hpriv hnp
    unfold getRoomV1
    rw [if_neg hb,
      if_neg (fun hx => by rw [hpriv] at hx; cases hx.1), if_pos hnp]
    constructor
    · intro hge
      rw [if_pos hge]
    · intro hlt
      rw [if_neg (Nat.not_le.mpr hlt)]
      refine ⟨rfl, ?_⟩
      simp only [List.length_append, List.length_singleton]
      omega
  · intro ha hc hb hnp
    unfold joinRoomV1
    rw [if_neg (by simp [ha]), if_neg (fun hx => hx.1 hc), if_neg hb,
      if_pos hnp]
    constructor
    · intro hge
      rw [if_pos hge]
    · intro hlt
      rw [if_neg (Nat.not_le.mpr hlt)]
      refine ⟨rfl, ?_⟩
      simp only [List.length_append, List.length_singleton]
      omega
  · intro hb hpriv hnp
    unfold getRoomV2
    rw [if_neg hb,
      if_neg (fun hx => by rw [hpriv] at hx; cases hx.1), if_pos hnp]
    constructor
    · intro hge
      rw [if_pos hge]
    · intro hlt
      rw [if_neg (Nat.not_le.mpr hlt)]
      refine ⟨rfl, ?_⟩
      simp only [List.length_append, List.length_singleton]
      omega
  · intro ha hc hb hnp
    unfold joinRoomV2
    rw [if_neg (by simp [ha]), if_neg (fun hx => hx.1 hc), if_neg hb,
      if_pos hnp]
    constructor
    · intro hge
      rw [if_pos hge]
    · intro hlt
      rw [if_neg (Nat.not_le.mpr hlt)]
      refine ⟨rfl, ?_⟩
      simp only [List.length_append, List.length_singleton]
      omega

/-- C6, witness: the amended theorem at a room with limit 1 and no banned
users: a stranger's view is refused with Forbidden at capacity. -/
theorem admission_capacity_enforced_witness :
    getRoomV1 { c6r with bannedUsers := [] } 3 = .error .forbidden :=
  (((admission_capacity_enforced_on_checked_list
    { c6r with bannedUsers := [] } 3 none).1 (by decide) rfl (by decide)).1
    (by decide))

/-! ### C7 — ban exclusivity after membership operations

Creation and the first copy's join/GET maintain
`participants ∩ bannedUsers = ∅`; the second copy's `GET /:roomId` (the
handler the claim cites at lines 617-640) rejects a banned *requester* but
never purges banned users already present, so a stale banned participant
survives the save. -/

/-- A room with a stale banned participant (user 2 both in `participants`
and `bannedUsers`). -/
def c7r : Room :=
  { name := "bans", creator := 1, participants := [2], movie := none,
    settings :=
      { maxParticipants := none, allowChat := none, allowWatchlist := none,
        allowTrivia := none, autoplay := none, description := none,
        videoLink := none },
    watchlist := [], isPrivate := false, inviteCode := none,
    bannedUsers := [2], isActive := true, playbackEvents := [],
    syncEvents := [] }

/-- C7, counterexample: a non-banned requester's `GET /:roomId` on the
second router copy admits them and saves the room with the banned user still
among `participants`, violating `participants ∩ bannedUsers = ∅`. -/
theorem getRoomV2_retains_banned_participant :
    (3 : UserId) ∉ c7r.bannedUsers ∧ (2 : UserId) ∈ c7r.bannedUsers ∧
    getRoomV2 c7r 3 = .ok { c7r with participants := [2, 3] } ∧
    ¬ bansRespected { c7r with participants := [2, 3] } := by
  refine ⟨by decide, by decide, by decide, by decide⟩

/-- C7, amended: the disjointness invariant holds after room creation and
after the first router copy's `POST /join` and `GET /:roomId` (the paths
that purge); the second copy's handlers only reject a banned requester and
leave stale banned participants in place. -/
theorem creation_and_purging_paths_ban_exclusivity :
    (∀ (rooms : List Room) (name : String) (c : UserId) (mi : Option MovieInit)
        (priv : Bool) (code : String) (now : Nat) (r2 : Room),
      createRoom rooms name c mi priv code now = .ok r2 → bansRespected r2) ∧
    (∀ (r : Room) (u : UserId) (code : Option String) (r2 : Room),
      joinRoomV1 r u code = .ok r2 → bansRespected r2) ∧
    (∀ (r : Room) (u : UserId) (r2 : Room),
      getRoomV1 r u = .ok r2 → bansRespected r2) := by
  refine ⟨?_, ?_, ?_⟩
  · intro rooms name c mi priv code now r2 h
    unfold createRoom at h
    split_ifs at h <;> cases h <;> (intro p hp; simp)
  · intro r u code r2 h
    unfold joinRoomV1 at h
    split_ifs at h with h1 h2 h3 h4 h5
    · cases h
      intro p hp
      have hp2 : p ∈ purgedParticipants r := hp
      show p ∉ r.bannedUsers
      exact (mem_purged.mp hp2).2
    · cases h
      intro p hp
      have hp2 : p ∈ purgedParticipants r ++ [u] := hp
      show p ∉ r.bannedUsers
      rcases List.mem_append.mp hp2 with hmem | hmem
      · exact (mem_purged.mp hmem).2
      · rw [List.mem_singleton.mp hmem]
        exact h3
  · intro r u r2 h
    unfold getRoomV1 at h
    split_ifs at h with h1 h2 h3 h4
    · cases h
      intro p hp
      have hp2 : p ∈ purgedParticipants r := hp
      show p ∉ r.bannedUsers
      exact (mem_purged.mp hp2).2
    · cases h
      intro p hp
      have hp2 : p ∈ purgedParticipants r ++ [u] := hp
      show p ∉ r.bannedUsers
      rcases List.mem_append.mp hp2 with hmem | hmem
      · exact (mem_purged.mp hmem).2
      · rw [List.mem_singleton.mp hmem]
        exact h1

/-- C7, witness: the amended theorem applied to the first copy's GET on the
room `c6r` with a stale banned participant: the purge removes them and the
saved room respects the ban invariant. -/
theorem creation_and_purging_paths_ban_exclusivity_witness :
    bansRespected { c6r with participants := [3] } :=
  creation_and_purging_paths_ban_exclusivity.2.2 c6r 3
    { c6r with participants := [3] } (by decide)

/-! ### C8 — selecting a watchlist entry promotes it and removes it -/

/-- C8, confirmed: a creator's select on a room whose watchlist contains an
entry with the given movie id — `e` being the first such entry, the one
`find` returns — sets `movie` to the entry's title and thumbnail with a
playback URL built from the id, `currentTime = 0` and `isPlaying = true`,
and removes every entry bearing that id from the watchlist, both in the one
room state the single `room.save()` persists. -/
theorem selectMovie_promotes_and_removes (r : Room) (u : UserId)
    (mid : String) (e : WatchlistEntry) (now : Nat) (hc : r.creator = u)
    (hf : findEntry r.watchlist mid = some e) :
    selectMovie r u mid now = .ok { r with
      movie := some
        { title := some e.movie.title,
          url := some ("https://www.youtube.com/watch?v=" ++ mid),
          thumbnail := e.movie.thumbnail, currentTime := 0, isPlaying := true,
          lastUpdated := now },
      watchlist := r.watchlist.filter (fun x => decide (x.movie.id ≠ mid)) } ∧
    findEntry (r.watchlist.filter (fun x => decide (x.movie.id ≠ mid))) mid =
      none := by
  have hid := findEntry_id hf
  subst hid
  constructor
  · unfold selectMovie
    rw [if_neg (fun h => h hc), hf]
  · exact findEntry_filter_ne _ _

/-- C8, witness: creator 1 selects the only entry of a one-entry ledger;
the movie is promoted and the ledger emptied. -/
theorem selectMovie_promotes_and_removes_witness :
    selectMovie { c5r with watchlist := [c5e1] } 1 "m" 4 =
      .ok { { c5r with watchlist := [c5e1] } with
        movie := some
          { title := some c5e1.movie.title,
            url := some ("https://www.youtube.com/watch?v=" ++ "m"),
            thumbnail := c5e1.movie.thumbnail, currentTime := 0,
            isPlaying := true, lastUpdated := 4 },
        watchlist := ({ c5r with watchlist := [c5e1] } : Room).watchlist.filter
          (fun x => decide (x.movie.id ≠ "m")) } ∧
    findEntry (({ c5r with watchlist := [c5e1] } : Room).watchlist.filter
      (fun x => decide (x.movie.id ≠ "m"))) "m" = none :=
  selectMovie_promotes_and_removes { c5r with watchlist := [c5e1] } 1 "m"
    c5e1 4 rfl (by decide)

/-! ### C9 — frame effect of `PATCH /:roomId/settings` on `movie` -/

/-- C9, confirmed: a creator's settings PATCH whose body omits `videoLink`
merges the allow-listed settings and leaves `movie` unchanged; a body
carrying `videoLink` additionally rewrites `movie` with `url` set to the new
link, `title := "Custom Video"`, `currentTime := 0`, `isPlaying := false`
and a fresh `lastUpdated` (the stored thumbnail, if any, is carried over). -/
theorem patchSettings_movie_frame_effect (r : Room) (u : UserId)
    (b : SettingsBody) (now : Nat) (hc : r.creator = u) :
    (b.videoLink = none →
      patchSettings r u b now =
        .ok { r with settings := mergeSettings r.settings b } ∧
      ({ r with settings := mergeSettings r.settings b } : Room).movie =
        r.movie) ∧
    (∀ v, b.videoLink = some v →
      ∃ r2, patchSettings r u b now = .ok r2 ∧
        r2.settings = mergeSettings r.settings b ∧
        r2.movie = some
          { title := some "Custom Video", url := some v,
            thumbnail := Option.bind r.movie Movie.thumbnail,
            currentTime := 0, isPlaying := false, lastUpdated := now }) := by
  constructor
  · intro hv
    unfold patchSettings
    rw [if_neg (fun h => h hc), hv]
    exact ⟨rfl, rfl⟩
  · intro v hv
    unfold patchSettings
    rw [if_neg (fun h => h hc), hv]
    refine ⟨_, rfl, rfl, ?_⟩
    cases r.movie with
    | none => rfl
    | some m => rfl

/-- C9, witness: the theorem applied at room `c1r` (creator 0) with a body
carrying only `videoLink`; the stored movie is overwritten as described. -/
theorem patchSettings_movie_frame_effect_witness :
    ∃ r2, patchSettings c1r 0
        { maxParticipants := none, allowChat := none, allowWatchlist := none,
          allowTrivia := none, autoplay := none, description := none,
          videoLink := some "https://example.org/v" } 7 = .ok r2 ∧
      r2.movie = some
        { title := some "Custom Video", url := some "https://example.org/v",
          thumbnail := Option.bind c1r.movie Movie.thumbnail,
          currentTime := 0, isPlaying := false, lastUpdated := 7 } := by
  obtain ⟨r2, h1, -, h3⟩ := (patchSettings_movie_frame_effect c1r 0
    { maxParticipants := none, allowChat := none, allowWatchlist := none,
      allowTrivia := none, autoplay := none, description := none,
      videoLink := some "https://example.org/v" } 7 rfl).2
    "https://example.org/v" rfl
  exact ⟨r2, h1, h3⟩

/-! ### C10 — `GET /:roomId` never consults `isActive` -/

theorem getRoomV1_ne_notFound (r : Room) (u : UserId) :
    getRoomV1 r u ≠ .error .notFound := by
  unfold getRoomV1
  split_ifs <;> simp

theorem getRoomV1_withActive (r : Room) (u : UserId) (b : Bool) :
    getRoomV1 { r with isActive := b } u =
      (getRoomV1 r u).map (fun x => { x with isActive := b }) := by
  unfold getRoomV1 purgedParticipants Settings.effectiveMax
  dsimp only
  split_ifs <;> rfl

/-- The analogous statement for the second router copy. -/
theorem getRoomV2_withActive (r : Room) (u : UserId) (b : Bool) :
    getRoomV2 { r with isActive := b } u =
      (getRoomV2 r u).map (fun x => { x with isActive := b }) := by
  unfold getRoomV2 Settings.effectiveMax
  dsimp only
  split_ifs <;> rfl

/-- C10, confirmed: `GET /:roomId` (both copies) never consults `isActive`:
its 404 arises exactly when no document with the id is stored; its outcome
on a room is unchanged (modulo the copied `isActive` field) when `isActive`
is flipped; `DELETE` soft-deletes by setting `isActive := false` on the
stored document; and the implicit join-on-view admits a new, non-banned
requester into an inactive room. -/
theorem getRoom_ignores_isActive :
    (∀ (store : List (Nat × Room)) (id : Nat) (u : UserId),
      getRoomByIdV1 store id u = .error .notFound ↔ findById store id = none) ∧
    (∀ (r : Room) (u : UserId) (b : Bool),
      getRoomV1 { r with isActive := b } u =
        (getRoomV1 r u).map (fun x => { x with isActive := b }) ∧
      getRoomV2 { r with isActive := b } u =
        (getRoomV2 r u).map (fun x => { x with isActive := b })) ∧
    (∀ (r : Room) (u : UserId), r.creator = u →
      deleteRoom r u = .ok { r with isActive := false }) ∧
    (∀ (r : Room) (u : UserId), r.isActive = false → u ∉ r.bannedUsers →
      r.isPrivate = false → u ∉ purgedParticipants r →
      (purgedParticipants r).length < r.settings.effectiveMax →
      getRoomV1 r u =
        .ok { r with participants := purgedParticipants r ++ [u] } ∧
      ({ r with participants := purgedParticipants r ++ [u] } : Room).isActive
        = false) := by
  refine ⟨?_, ?_, ?_, ?_⟩
  · intro store id u
    unfold getRoomByIdV1
    cases hf : findById store id with
    | none => simp
    | some r => simp [getRoomV1_ne_notFound r u]
  · intro r u b
    exact ⟨getRoomV1_withActive r u b, getRoomV2_withActive r u b⟩
  · intro r u hc
    unfold deleteRoom
    rw [if_neg (fun h => h hc)]
  · intro r u hin hb hpriv hnp hlt
    unfold getRoomV1
    rw [if_neg hb,
      if_neg (fun hx => by rw [hpriv] at hx; cases hx.1), if_pos hnp,
      if_neg (Nat.not_le.mpr hlt)]
    exact ⟨rfl, hin⟩

/-- A soft-deleted room for the C10 witness. -/
def c10r : Room :=
  { name := "gone", creator := 1, participants := [1], movie := none,
    settings :=
      { maxParticipants := none, allowChat := none, allowWatchlist := none,
        allowTrivia := none, autoplay := none, description := none,
        videoLink := none },
    watchlist := [], isPrivate := false, inviteCode := none,
    bannedUsers := [], isActive := false, playbackEvents := [],
    syncEvents := [] }

/-- C10, witness: the theorem's admission part applied to the concrete
soft-deleted room `c10r` and a new requester 4: the view succeeds and admits
them even though `isActive = false`. -/
theorem getRoom_ignores_isActive_witness :
    getRoomV1 c10r 4 =
      .ok { c10r with participants := purgedParticipants c10r ++ [4] } ∧
    ({ c10r with participants := purgedParticipants c10r ++ [4] } : Room).isActive
      = false :=
  getRoom_ignores_isActive.2.2.2 c10r 4 rfl (by decide) rfl (by decide)
    (by decide)

end StreamBackend
